import Mathlib

/-!
Verification of the class-management backend's authorization core.

Shallow embedding of the JavaScript sources:
* `src/middleware/roleCheck.js` — static permission table and role helpers;
* `src/middleware/auth.js` — authentication and authorization gates;
* `routes/auth.js` — register and login handlers;
* `routes/superadmin.js` — role-change and user-delete handlers;
* `routes/lessonPlans.js` — teacher-ownership-scoped mutation handlers;
* `lib/prisma.js` — bounded-retry wrapper around the database client.

Machine strings are Lean `String`; JS numbers used as ids are `Int`;
the database is an explicit lookup function passed to each handler.
-/

namespace ClassMgmt

/-! ## roleCheck.js : permission table and helpers -/

namespace RoleCheck

/-- The four role strings of `ROLES` in roleCheck.js. -/
def ROLES : List String := ["superadmin", "admin", "teacher", "student"]

/-- The static `PERMISSIONS` table of roleCheck.js, as an association list
from action name to the list of allowed roles (source order preserved). -/
def PERMISSIONS : List (String × List String) :=
  [ ("VIEW_STUDENTS",    ["superadmin", "admin", "teacher"]),
    ("CREATE_STUDENTS",  ["superadmin", "admin"]),
    ("UPDATE_STUDENTS",  ["superadmin", "admin"]),
    ("DELETE_STUDENTS",  ["superadmin", "admin"]),
    ("VIEW_TEACHERS",    ["superadmin", "admin", "teacher"]),
    ("CREATE_TEACHERS",  ["superadmin", "admin"]),
    ("UPDATE_TEACHERS",  ["superadmin", "admin"]),
    ("DELETE_TEACHERS",  ["superadmin", "admin"]),
    ("VIEW_CLASSES",     ["superadmin", "admin", "teacher", "student"]),
    ("CREATE_CLASSES",   ["superadmin", "admin"]),
    ("UPDATE_CLASSES",   ["superadmin", "admin", "teacher"]),
    ("DELETE_CLASSES",   ["superadmin", "admin"]),
    ("VIEW_ENROLLMENTS",   ["superadmin", "admin", "teacher", "student"]),
    ("CREATE_ENROLLMENTS", ["superadmin", "admin", "teacher"]),
    ("UPDATE_ENROLLMENTS", ["superadmin", "admin"]),
    ("DELETE_ENROLLMENTS", ["superadmin", "admin", "teacher"]),
    ("VIEW_USERS",       ["superadmin", "admin"]),
    ("CREATE_USERS",     ["superadmin", "admin"]),
    ("UPDATE_USERS",     ["superadmin", "admin"]),
    ("DELETE_USERS",     ["superadmin"]),
    ("MANAGE_ADMINS",    ["superadmin"]),
    ("CHANGE_ROLES",     ["superadmin"]),
    ("VIEW_MESSAGES",    ["superadmin", "admin", "teacher", "student"]),
    ("CREATE_MESSAGES",  ["superadmin", "admin", "teacher", "student"]),
    ("DELETE_MESSAGES",  ["superadmin", "admin"]),
    ("VIEW_ANALYTICS",   ["superadmin", "admin", "teacher"]),
    ("VIEW_SCHOOLS",     ["superadmin", "admin", "teacher"]),
    ("MANAGE_SCHOOLS",   ["superadmin", "admin"]),
    ("VIEW_BRANCHES",    ["superadmin", "admin", "teacher"]),
    ("MANAGE_BRANCHES",  ["superadmin", "admin"]),
    ("SYSTEM_SETTINGS",  ["superadmin"]),
    ("VIEW_LOGS",        ["superadmin"]),
    ("MANAGE_SYSTEM",    ["superadmin"]) ]

/-- `PERMISSIONS[permission]` of roleCheck.js: first entry whose key matches. -/
def lookupPermission (permission : String) : Option (List String) :=
  (PERMISSIONS.find? (fun e => e.1 == permission)).map (fun e => e.2)

/-- `hasPermission(userRole, permission)` of roleCheck.js lines 64-71:
undefined table entry yields `false`, otherwise membership of the role
in the entry's role list. -/
def hasPermission (userRole permission : String) : Bool :=
  match lookupPermission permission with
  | none => false
  | some allowedRoles => allowedRoles.contains userRole

/-- `isSuperAdmin(userRole)` of roleCheck.js line 97. -/
def isSuperAdmin (userRole : String) : Bool := userRole == "superadmin"

/-- `isAdmin(userRole)` of roleCheck.js lines 100-101. -/
def isAdmin (userRole : String) : Bool :=
  userRole == "admin" || userRole == "superadmin"

/-- `canAccessResource(userId, resourceUserId, userRole)` of roleCheck.js
lines 108-110: exact owner match or role string equal to ADMIN. -/
def canAccessResource (userId resourceUserId : Int) (userRole : String) : Bool :=
  userId == resourceUserId || userRole == "admin"

end RoleCheck

/-! ## auth.js : authentication and authorization gates -/

namespace Auth

/-- A user record as selected by the authentication gate
(auth.js lines 24-35): id, email, name, role (other selected fields are
not consulted by any gate). -/
structure User where
  id : Int
  email : String
  name : String
  role : String
deriving DecidableEq, Repr

/-- The claims embedded in a session token at issuance
(routes/auth.js lines 192-196 and 395-399): userId, email, role. -/
structure TokenClaims where
  userId : Int
  email : String
  role : String
deriving DecidableEq, Repr

/-- Modelled from the spec: the token issuer/verifier (the external
jsonwebtoken collaborator, spec section 6) produces an opaque signed token
carrying the claims, the signing secret and an expiry instant (seconds). -/
structure Token where
  claims : TokenClaims
  secret : String
  exp : Nat
deriving DecidableEq, Repr

/-- Modelled from the spec: `sign(subject-claims, secret, ttl) → token`;
the expiry is the issuance instant plus the ttl (spec section 4.1:
"Tokens expire 7 days after issuance"). -/
def sign (claims : TokenClaims) (secret : String) (ttlSeconds now : Nat) : Token :=
  { claims := claims, secret := secret, exp := now + ttlSeconds }

/-- `expiresIn: '7d'` of routes/auth.js lines 192-196, in seconds. -/
def sevenDaysSeconds : Nat := 7 * 24 * 60 * 60

/-- The two verification failure classes distinguished by the
authentication gate (auth.js lines 51-63). -/
inductive VerifyError where
  | jsonWebTokenError
  | tokenExpiredError
deriving DecidableEq, Repr

/-- Modelled from the spec: `verify(token, secret) → claims or failure`
(spec section 6); reject a bad signature, reject a token whose expiry has
passed (spec section 4.1), signature checked before expiry. -/
def verifyToken (t : Token) (secret : String) (now : Nat) : Except VerifyError TokenClaims :=
  if t.secret = secret then
    if now < t.exp then .ok t.claims else .error .tokenExpiredError
  else .error .jsonWebTokenError

/-- Outcome of the authentication gate: the three 401 classes of
auth.js lines 37-63 or the resolved user attached to the request. -/
inductive AuthOutcome where
  | invalidToken
  | tokenExpired
  | userNotFound
  | ok (user : User)
deriving DecidableEq, Repr

/-- `authenticate` of auth.js lines 21-63, from the extracted bearer token
onward: verify, then re-fetch the subject by the decoded userId from the
persistence layer `db`; attach the fetched record. -/
def authenticate (tok : Token) (secret : String) (now : Nat)
    (db : Int → Option User) : AuthOutcome :=
  match verifyToken tok secret now with
  | .error .jsonWebTokenError => .invalidToken
  | .error .tokenExpiredError => .tokenExpired
  | .ok decoded =>
      match db decoded.userId with
      | none => .userNotFound
      | some user => .ok user

/-- The identity a gate outcome attaches to the request context
(`req.user`), if any. -/
def attachedUser : AuthOutcome → Option User
  | .ok u => some u
  | _ => none

/-- Outcome of a downstream authorization gate: 401, 403 or pass-through. -/
inductive GateOutcome where
  | authRequired
  | forbidden
  | proceed
deriving DecidableEq, Repr

/-- `authorize(...allowedRoles)` of auth.js lines 74-97: membership of the
caller's role in the explicit allowed-role list. -/
def authorize (allowedRoles : List String) (user : Option User) : GateOutcome :=
  match user with
  | none => .authRequired
  | some u => if allowedRoles.contains u.role then .proceed else .forbidden

/-- `requireAdmin` of auth.js line 100. -/
def requireAdmin (user : Option User) : GateOutcome := authorize ["admin"] user

/-- `requireTeacher` of auth.js line 101. -/
def requireTeacher (user : Option User) : GateOutcome :=
  authorize ["admin", "teacher"] user

/-- `requireStudent` of auth.js line 102. -/
def requireStudent (user : Option User) : GateOutcome :=
  authorize ["admin", "teacher", "student"] user

/-- `authorizeOwnerOrAdmin` of auth.js lines 105-127; `resourceUserId` is
the parsed id from params/body (`none` when absent). -/
def authorizeOwnerOrAdmin (resourceUserId : Option Int)
    (user : Option User) : GateOutcome :=
  match user with
  | none => .authRequired
  | some u =>
      let isOwner := match resourceUserId with
        | some rid => rid == u.id
        | none => false
      let isAdminRole := u.role == "admin"
      if !isOwner && !isAdminRole then .forbidden else .proceed

/-- The class record fields loaded by canManageResource
(auth.js lines 147-150). -/
structure ClassRec where
  teacherId : Int
deriving DecidableEq, Repr

/-- `canManageResource` of auth.js lines 130-168; `classLookup` is the
`prisma.class.findUnique` result for the target id. -/
def canManageResource (user : Option User) (resourceType : String)
    (classLookup : Option ClassRec) : GateOutcome :=
  match user with
  | none => .authRequired
  | some u =>
      if u.role == "admin" then .proceed
      else if u.role == "teacher" then
        if resourceType == "classes" then
          match classLookup with
          | some c => if c.teacherId == u.id then .proceed else .forbidden
          | none => .forbidden
        else .forbidden
      else .forbidden

end Auth

/-! ## routes/auth.js : register and login handlers -/

namespace AuthRoutes

/-- JS `String.prototype.toLowerCase`, char by char. -/
def lowerJs (s : List Char) : List Char := s.map Char.toLower

/-- Left half of JS `String.prototype.trim`: drop leading whitespace. -/
def trimLeftJs (s : List Char) : List Char := s.dropWhile Char.isWhitespace

/-- Right half of JS `String.prototype.trim`: drop trailing whitespace. -/
def trimRightJs (s : List Char) : List Char :=
  (s.reverse.dropWhile Char.isWhitespace).reverse

/-- JS `String.prototype.trim`. -/
def trimJs (s : List Char) : List Char := trimRightJs (trimLeftJs s)

/-- `email.toLowerCase().trim()` as performed by the register handler
(routes/auth.js line 104) and the login handler (line 346). -/
def normalizeEmail (email : List Char) : List Char := trimJs (lowerJs email)

/-- A stored user row as created by register (id assigned by the
persistence layer). -/
structure StoredUser where
  id : Int
  email : List Char
  name : String
  role : String
deriving DecidableEq, Repr

/-- The `POST /register` body fields the handler reads, for requests
without a phone number (the optional phone branch calls
lib/phoneVerification.js, which is outside these sources, and touches
neither the email nor the role). `role` is `none` when absent. -/
structure RegisterBody where
  email : List Char
  password : String
  name : String
  role : Option String
deriving DecidableEq, Repr

/-- `role: role || 'student'` of routes/auth.js line 167: a falsy role
value (absent field or empty string) falls back to student. -/
def roleOrDefault : Option String → String
  | none => "student"
  | some r => if r = "" then "student" else r

inductive RegisterOutcome where
  | missingFields
  | emailExists
  | created (user : StoredUser)
deriving DecidableEq, Repr

/-- `POST /register` handler of routes/auth.js lines 93-202 for bodies
without a phone number: reject missing fields, normalize the email, reject
a duplicate, otherwise create the user with the normalized email and the
requested-or-defaulted role. `db` is lookup-by-email over stored rows and
`freshId` the id the persistence layer assigns. -/
def registerHandler (body : RegisterBody) (freshId : Int)
    (db : List Char → Option StoredUser) : RegisterOutcome :=
  if body.email = [] || body.password = "" || body.name = "" then .missingFields
  else
    let normalizedEmail := normalizeEmail body.email
    match db normalizedEmail with
    | some _ => .emailExists
    | none => .created ⟨freshId, normalizedEmail, body.name, roleOrDefault body.role⟩

/-- The middleware chain mounted in front of the register handler:
`router.post('/register', async (req, res) => ...)` takes the handler
directly — no authentication or authorization middleware. -/
def registerMiddlewares : List String := []

/-- The user-lookup step of the `POST /login` handler (routes/auth.js
lines 345-363): normalize the submitted email, fetch by the normalized
key. -/
def loginLookup (email : List Char)
    (db : List Char → Option StoredUser) : Option StoredUser :=
  db (normalizeEmail email)

end AuthRoutes

/-! ## routes/superadmin.js : role change and user deletion -/

namespace SuperadminRoutes

/-- `validRoles` of routes/superadmin.js line 74. -/
def validRoles : List String := ["superadmin", "admin", "teacher", "student"]

inductive RoleChangeOutcome where
  | invalidRole
  | selfActionForbidden
  | updated (targetId : Int) (newRole : String)
deriving DecidableEq, Repr

/-- Handler body of `PUT /users/:id/role` (routes/superadmin.js lines
68-108), after authenticate and the superadmin role gate: reject an
unknown role; reject a self-targeted change when the requested role is not
superadmin; otherwise issue the update. -/
def changeRoleHandler (callerId targetId : Int) (role : String) :
    RoleChangeOutcome :=
  if !(validRoles.contains role) then .invalidRole
  else if targetId == callerId && role != "superadmin" then .selfActionForbidden
  else .updated targetId role

inductive DeleteOutcome where
  | selfActionForbidden
  | deleted (targetId : Int)
deriving DecidableEq, Repr

/-- Handler body of `DELETE /users/:id` (routes/superadmin.js lines
194-212), after authenticate and the superadmin role gate: a self-targeted
delete is always rejected; otherwise the delete is issued. -/
def deleteUserHandler (callerId targetId : Int) : DeleteOutcome :=
  if targetId == callerId then .selfActionForbidden
  else .deleted targetId

end SuperadminRoutes

/-! ## routes/lessonPlans.js : ownership-scoped mutations -/

namespace LessonPlans

/-- The teacher fields included by `getLessonPlanById`
(data/storage.js lines 557-577). -/
structure TeacherRec where
  id : Int
  name : String
  email : String
deriving DecidableEq, Repr

/-- A lesson plan row with its included owning teacher. -/
structure LessonPlan where
  id : Int
  teacherId : Int
  teacher : TeacherRec
deriving DecidableEq, Repr

inductive RouteOutcome where
  | authRequired
  | roleForbidden
  | notFound
  | ownForbidden
  | success (planId : Int)
deriving DecidableEq, Repr

/-- `PUT /:id` of routes/lessonPlans.js lines 128-166: authentication,
the requireTeacher role gate (admin or teacher), the 404 check, then the
ownership check — a caller with role teacher may proceed only when the
plan's included teacher email equals the caller's email; other passing
roles (admin) skip the ownership check. -/
def updateLessonPlanRoute (user : Option Auth.User)
    (plan : Option LessonPlan) : RouteOutcome :=
  match user with
  | none => .authRequired
  | some u =>
      if !(["admin", "teacher"].contains u.role) then .roleForbidden
      else match plan with
        | none => .notFound
        | some p =>
            if u.role == "teacher" && p.teacher.email != u.email then .ownForbidden
            else .success p.id

/-- `DELETE /:id` of routes/lessonPlans.js lines 169-191: identical gating
to the update route. -/
def deleteLessonPlanRoute (user : Option Auth.User)
    (plan : Option LessonPlan) : RouteOutcome :=
  match user with
  | none => .authRequired
  | some u =>
      if !(["admin", "teacher"].contains u.role) then .roleForbidden
      else match plan with
        | none => .notFound
        | some p =>
            if u.role == "teacher" && p.teacher.email != u.email then .ownForbidden
            else .success p.id

end LessonPlans

/-! ## lib/prisma.js : bounded-retry wrapper around the database client -/

namespace PrismaRetry

/-- The error-shape fields read by the retry classifiers of lib/prisma.js:
message, top-level code, meta.code, cause.code (numeric) and
cause.message. -/
structure JsError where
  message : String
  code : Option String
  metaCode : Option String
  causeCode : Option Int
  causeMessage : Option String
deriving DecidableEq, Repr

/-- JS `string.includes(needle)`. -/
def includes (hay needle : String) : Bool := decide (needle.toList <:+: hay.toList)

/-- `isPreparedStatementError` of lib/prisma.js lines 208-212. The
`errorCode === '42P05'` disjunct of lines 204-212 is subsumed on this
error shape: meta.code is tested directly, cause.code is numeric and a
message match of 42P05 is already a message-includes disjunct. -/
def isPreparedStatementError (e : JsError) : Bool :=
  includes e.message "prepared statement" || includes e.message "42P05" ||
  includes e.message "already exists" || e.metaCode == some "42P05"

/-- `isSocketError` of lib/prisma.js lines 215-217. -/
def isSocketError (e : JsError) : Bool :=
  includes e.message "WSAStartup" || includes e.message "10093" ||
  e.causeCode == some 10093

/-- `isConnectionError` of lib/prisma.js lines 220-222. -/
def isConnectionError (e : JsError) : Bool :=
  e.code == some "P1001" ||
  includes e.message "Can\x27t reach database server" ||
  includes e.message "connection"

/-- `isConnectionReset` of lib/prisma.js lines 225-229. -/
def isConnectionReset (e : JsError) : Bool :=
  e.causeCode == some 10054 || includes e.message "10054" ||
  includes e.message "ConnectionReset" || includes e.message "forcibly closed" ||
  (match e.causeMessage with
   | some m => includes m "forcibly closed"
   | none => false)

/-- The retryable class: the disjunction guarding the retry branch of
lib/prisma.js line 231. -/
def isRetryable (e : JsError) : Bool :=
  isPreparedStatementError e || isSocketError e ||
  isConnectionError e || isConnectionReset e

/-- `maxRetries` of lib/prisma.js line 192. -/
def maxRetries : Nat := 3

/-- The `while (retryCount < maxRetries)` loop of the wrapped model method
(lib/prisma.js lines 190-267), with reconnection modelled as succeeding:
`attempts k` is the outcome of the k-th underlying call; the result pairs
the returned-or-thrown outcome (`none` for a fall-through loop exit, which
never happens from retryCount 0) with the list of backoff delays
(`1000 * retryCount` milliseconds each, line 247) waited before retries. -/
def retryGo (attempts : Nat → Except JsError α) (retryCount : Nat) :
    Option (Except JsError α) × List Nat :=
  if _h : retryCount < maxRetries then
    match attempts retryCount with
    | .ok v => (some (.ok v), [])
    | .error e =>
        if hr : isRetryable e = true ∧ retryCount < maxRetries - 1 then
          let rc := retryCount + 1
          let rest := retryGo attempts rc
          (rest.1, (1000 * rc) :: rest.2)
        else (some (.error e), [])
  else (none, [])
termination_by maxRetries - retryCount
decreasing_by simp only [maxRetries] at *; omega

/-- A wrapped call: the loop entered with `retryCount = 0`. -/
def runWithRetry (attempts : Nat → Except JsError α) :
    Option (Except JsError α) × List Nat :=
  retryGo attempts 0

end PrismaRetry

end ClassMgmt

namespace ClassMgmt

open RoleCheck Auth AuthRoutes SuperadminRoutes LessonPlans PrismaRetry

/-- The action names of the table are pairwise distinct, so an entry is
determined by its key. -/
theorem permissions_keys_nodup : (PERMISSIONS.map Prod.fst).Nodup := by decide

/-- C1: `hasPermission(r, a)` is `true` exactly when the table has an entry
named `a` whose role list contains `r`; any action name absent from the
table denies every role. -/
theorem hasPermission_table_spec (r a : String) :
    (hasPermission r a = true ↔ ∃ e ∈ PERMISSIONS, e.1 = a ∧ r ∈ e.2) ∧
    (a ∉ PERMISSIONS.map Prod.fst → hasPermission r a = false) := by
  constructor
  · unfold hasPermission lookupPermission
    cases hf : PERMISSIONS.find? (fun e => e.1 == a) with
    | none =>
      simp only [Option.map_none', Bool.false_eq_true, false_iff]
      rintro ⟨e, he, hkey, -⟩
      have := List.find?_eq_none.mp hf e he
      simp [hkey] at this
    | some e =>
      have hkey : e.1 = a := by
        have := List.find?_some hf
        simpa using this
      have hmem : e ∈ PERMISSIONS := List.mem_of_find?_eq_some hf
      simp only [Option.map_some']
      constructor
      · intro hc
        exact ⟨e, hmem, hkey, by simpa using hc⟩
      · rintro ⟨e', hmem', hkey', hr⟩
        have : e = e' :=
          List.inj_on_of_nodup_map permissions_keys_nodup hmem hmem'
            (by rw [hkey, hkey'])
        subst this
        simpa using hr
  · intro hno
    unfold hasPermission lookupPermission
    cases hf : PERMISSIONS.find? (fun e => e.1 == a) with
    | none => rfl
    | some e =>
      exfalso
      apply hno
      have hkey : e.1 = a := by
        have := List.find?_some hf
        simpa using this
      exact hkey ▸ List.mem_map_of_mem Prod.fst (List.mem_of_find?_eq_some hf)

/-- C1 witness: concrete instances — a registered action allowing a listed
role, the same action denying an unlisted role, and an unknown action
denying everything. -/
theorem hasPermission_table_spec_witness :
    hasPermission "teacher" "VIEW_STUDENTS" = true ∧
    hasPermission "nosuchrole" "DELETE_USERS" = false ∧
    hasPermission "superadmin" "NOT_AN_ACTION" = false := by
  refine ⟨?_, ?_, ?_⟩
  · exact (hasPermission_table_spec "teacher" "VIEW_STUDENTS").1.mpr
      ⟨("VIEW_STUDENTS", ["superadmin", "admin", "teacher"]), by decide, by decide, by decide⟩
  · have hne : ¬ ∃ e ∈ PERMISSIONS, e.1 = "DELETE_USERS" ∧ "nosuchrole" ∈ e.2 := by
      decide
    cases hb : hasPermission "nosuchrole" "DELETE_USERS" with
    | false => rfl
    | true =>
      exact absurd ((hasPermission_table_spec "nosuchrole" "DELETE_USERS").1.mp hb) hne
  · exact (hasPermission_table_spec "superadmin" "NOT_AN_ACTION").2 (by decide)

/-- C3 counterexample: a caller with role superadmin is NOT allowed by
canManageResource — even on a class they nominally match — contrary to the
claim that superadmin bypasses the gate unconditionally. -/
theorem canManageResource_superadmin_denied :
    canManageResource (some ⟨1, "s@x.com", "S", "superadmin"⟩) "classes"
      (some ⟨1⟩) = .forbidden := by decide

/-- C3 (amended): canManageResource lets role admin through unconditionally
without consulting the loaded resource; role superadmin is denied
unconditionally (it falls through to the catch-all denial); role teacher is
allowed exactly when the resource type is classes and the loaded class's
teacherId equals the caller's id. -/
theorem canManageResource_spec (u : User) (rt : String) (cl : Option ClassRec) :
    (u.role = "admin" → canManageResource (some u) rt cl = .proceed) ∧
    (u.role = "superadmin" → canManageResource (some u) rt cl = .forbidden) ∧
    (u.role = "teacher" →
      (canManageResource (some u) rt cl = .proceed ↔
        rt = "classes" ∧ ∃ c, cl = some c ∧ c.teacherId = u.id)) := by
  refine ⟨?_, ?_, ?_⟩
  · intro h
    simp [canManageResource, h]
  · intro h
    simp [canManageResource, h]
  · intro h
    simp only [canManageResource, h]
    by_cases hrt : rt = "classes"
    · subst hrt
      cases cl with
      | none => simp
      | some c =>
        by_cases ho : c.teacherId = u.id
        · simp [ho]
        · simp [ho]
    · simp [hrt]

/-- C3 witness for the amended theorem: an admin passes without any loaded
resource, a superadmin is denied, an owning teacher passes and a
non-owning teacher is denied. -/
theorem canManageResource_spec_witness :
    canManageResource (some ⟨1, "a@x.com", "A", "admin"⟩) "students" none = .proceed ∧
    canManageResource (some ⟨2, "s@x.com", "S", "superadmin"⟩) "students" none = .forbidden ∧
    canManageResource (some ⟨3, "t@x.com", "T", "teacher"⟩) "classes" (some ⟨3⟩) = .proceed ∧
    canManageResource (some ⟨4, "u@x.com", "U", "teacher"⟩) "classes" (some ⟨3⟩) ≠ .proceed := by
  refine ⟨?_, ?_, ?_, ?_⟩
  · exact (canManageResource_spec ⟨1, "a@x.com", "A", "admin"⟩ "students" none).1 rfl
  · exact (canManageResource_spec ⟨2, "s@x.com", "S", "superadmin"⟩ "students" none).2.1 rfl
  · exact ((canManageResource_spec ⟨3, "t@x.com", "T", "teacher"⟩ "classes"
      (some ⟨3⟩)).2.2 rfl).mpr ⟨rfl, ⟨3⟩, rfl, rfl⟩
  · intro hp
    obtain ⟨-, c, hc, hid⟩ := ((canManageResource_spec ⟨4, "u@x.com", "U", "teacher"⟩
      "classes" (some ⟨3⟩)).2.2 rfl).mp hp
    cases hc
    exact absurd hid (by decide)

/-- C5: the gate trusts only the subject id in the token's claims; two valid
tokens for the same subject id — however their embedded role claims differ —
yield the same attached identity, the attached record is exactly the one the
persistence layer returns for that id, and every downstream role-list
authorization decision coincides. -/
theorem authenticate_role_from_db (t1 t2 : Token) (secret : String) (now : Nat)
    (db : Int → Option User)
    (h1 : t1.secret = secret) (h2 : t2.secret = secret)
    (e1 : now < t1.exp) (e2 : now < t2.exp)
    (hid : t1.claims.userId = t2.claims.userId) :
    authenticate t1 secret now db = authenticate t2 secret now db ∧
    (∀ u, authenticate t1 secret now db = .ok u → db t1.claims.userId = some u) ∧
    (∀ allowedRoles,
      authorize allowedRoles (attachedUser (authenticate t1 secret now db)) =
      authorize allowedRoles (attachedUser (authenticate t2 secret now db))) := by
  have hv1 : verifyToken t1 secret now = .ok t1.claims := by
    simp [verifyToken, h1, e1]
  have hv2 : verifyToken t2 secret now = .ok t2.claims := by
    simp [verifyToken, h2, e2]
  have hmain : authenticate t1 secret now db = authenticate t2 secret now db := by
    simp [authenticate, hv1, hv2, hid]
  refine ⟨hmain, ?_, ?_⟩
  · intro u hu
    simp only [authenticate, hv1] at hu
    cases hdb : db t1.claims.userId with
    | none => simp [hdb] at hu
    | some v => simp [hdb] at hu; simp [hu]
  · intro allowedRoles
    rw [hmain]

/-- C5 witness: two tokens for subject 7, one claiming role student and the
other claiming role superadmin, resolve to the same attached identity
carrying the role stored in the persistence layer. -/
theorem authenticate_role_from_db_witness :
    authenticate ⟨⟨7, "u@x.com", "student"⟩, "sec", 100⟩ "sec" 50
        (fun i => if i = 7 then some ⟨7, "u@x.com", "U", "teacher"⟩ else none) =
      authenticate ⟨⟨7, "u@x.com", "superadmin"⟩, "sec", 100⟩ "sec" 50
        (fun i => if i = 7 then some ⟨7, "u@x.com", "U", "teacher"⟩ else none) :=
  (authenticate_role_from_db ⟨⟨7, "u@x.com", "student"⟩, "sec", 100⟩
    ⟨⟨7, "u@x.com", "superadmin"⟩, "sec", 100⟩ "sec" 50
    (fun i => if i = 7 then some ⟨7, "u@x.com", "U", "teacher"⟩ else none)
    rfl rfl (by decide) (by decide) rfl).1

/-- C7: a token issued with the 7-day ttl at time T passes verification at
T plus 6 days, is rejected as expired by the authentication gate at T plus
8 days, and a token signed with a secret different from the verifier's is
rejected as invalid at every verification time. -/
theorem token_seven_day_lifecycle (claims : TokenClaims) (secret badSecret : String)
    (T n : Nat) (db : Int → Option User) (hs : badSecret ≠ secret) :
    verifyToken (sign claims secret sevenDaysSeconds T) secret
        (T + 6 * 86400) = .ok claims ∧
    authenticate (sign claims secret sevenDaysSeconds T) secret
        (T + 8 * 86400) db = .tokenExpired ∧
    authenticate (sign claims badSecret sevenDaysSeconds T) secret n db
        = .invalidToken := by
  refine ⟨?_, ?_, ?_⟩
  · have hlt : T + 6 * 86400 < T + sevenDaysSeconds := by
      simp only [sevenDaysSeconds]; omega
    simp [verifyToken, sign, hlt]
  · have hge : ¬ (T + 8 * 86400 < T + sevenDaysSeconds) := by
      simp only [sevenDaysSeconds]; omega
    simp [authenticate, verifyToken, sign, hge]
  · simp [authenticate, verifyToken, sign, hs]

/-- C7 witness: concrete lifecycle at T equal to 0 with secret "s" and a
token signed with "x" instead. -/
theorem token_seven_day_lifecycle_witness :
    verifyToken (sign ⟨1, "u@x.com", "student"⟩ "s" sevenDaysSeconds 0) "s"
        (0 + 6 * 86400) = .ok ⟨1, "u@x.com", "student"⟩ ∧
    authenticate (sign ⟨1, "u@x.com", "student"⟩ "s" sevenDaysSeconds 0) "s"
        (0 + 8 * 86400) (fun _ => none) = .tokenExpired ∧
    authenticate (sign ⟨1, "u@x.com", "student"⟩ "x" sevenDaysSeconds 0) "s" 3
        (fun _ => none) = .invalidToken :=
  token_seven_day_lifecycle ⟨1, "u@x.com", "student"⟩ "s" "x" 0 3
    (fun _ => none) (by decide)

/-- C8: the admin-only convenience gate and both owner-or-admin helpers
grant the non-owner bypass to role admin only: a superadmin caller is
rejected by requireAdmin, rejected by authorizeOwnerOrAdmin on a resource
they do not own and rejected by canAccessResource, while an admin caller
passes each of the three. -/
theorem admin_gates_exclude_superadmin (u v : User) (rid : Int)
    (hu : u.role = "superadmin") (hv : v.role = "admin")
    (hru : rid ≠ u.id) (hrv : rid ≠ v.id) :
    requireAdmin (some u) = .forbidden ∧
    requireAdmin (some v) = .proceed ∧
    authorizeOwnerOrAdmin (some rid) (some u) = .forbidden ∧
    authorizeOwnerOrAdmin (some rid) (some v) = .proceed ∧
    canAccessResource u.id rid u.role = false ∧
    canAccessResource v.id rid v.role = true := by
  refine ⟨?_, ?_, ?_, ?_, ?_, ?_⟩
  · simp [requireAdmin, authorize, hu]
  · simp [requireAdmin, authorize, hv]
  · simp [authorizeOwnerOrAdmin, hu, hru]
  · simp [authorizeOwnerOrAdmin, hv]
  · simp [canAccessResource, hu]
    omega
  · simp [canAccessResource, hv]

/-- C8 witness: superadmin caller 1 and admin caller 2 against resource
owner id 9. -/
theorem admin_gates_exclude_superadmin_witness :
    requireAdmin (some ⟨1, "s@x.com", "S", "superadmin"⟩) = .forbidden ∧
    requireAdmin (some ⟨2, "a@x.com", "A", "admin"⟩) = .proceed ∧
    authorizeOwnerOrAdmin (some 9) (some ⟨1, "s@x.com", "S", "superadmin"⟩) = .forbidden ∧
    authorizeOwnerOrAdmin (some 9) (some ⟨2, "a@x.com", "A", "admin"⟩) = .proceed ∧
    canAccessResource 1 9 "superadmin" = false ∧
    canAccessResource 2 9 "admin" = true :=
  admin_gates_exclude_superadmin ⟨1, "s@x.com", "S", "superadmin"⟩
    ⟨2, "a@x.com", "A", "admin"⟩ 9 rfl rfl (by decide) (by decide)

/-- C2 counterexample: a superadmin (id 1) requesting a change of their own
role TO superadmin is not rejected — the handler issues the update — so the
claim that a self role change to any role is rejected fails. -/
theorem changeRole_self_superadmin_not_rejected :
    changeRoleHandler 1 1 "superadmin" = .updated 1 "superadmin" ∧
    changeRoleHandler 1 1 "superadmin" ≠ .selfActionForbidden := by decide

/-- C2 (amended): a superadmin's request to change their own role is
rejected as self-action-forbidden for every valid role except superadmin
(a self-change to superadmin passes the guard and issues the update),
and a superadmin's request to delete their own account is always rejected
as self-action-forbidden; in the rejected cases no update or delete is
issued. -/
theorem self_action_guards (callerId : Int) (role : String)
    (hv : role ∈ validRoles) (hns : role ≠ "superadmin") :
    changeRoleHandler callerId callerId role = .selfActionForbidden ∧
    deleteUserHandler callerId callerId = .selfActionForbidden := by
  constructor
  · have hc : validRoles.contains role = true := by
      simpa using hv
    simp [changeRoleHandler, hc, hns, hv]
  · simp [deleteUserHandler]

/-- C2 witness: superadmin with id 5 demoting themselves to student is
rejected, and deleting themselves is rejected. -/
theorem self_action_guards_witness :
    changeRoleHandler 5 5 "student" = .selfActionForbidden ∧
    deleteUserHandler 5 5 = .selfActionForbidden :=
  self_action_guards 5 "student" (by decide) (by decide)

/-- C4: a well-formed registration with a fresh email creates the user
with exactly the requested role string when one is supplied (any non-empty
value, superadmin included) and with role student when the field is
absent; the route mounts no authentication middleware. -/
theorem register_role_unchecked (body : RegisterBody) (freshId : Int)
    (db : List Char → Option StoredUser)
    (hemail : body.email ≠ []) (hpw : body.password ≠ "")
    (hname : body.name ≠ "")
    (hfresh : db (normalizeEmail body.email) = none) :
    registerHandler body freshId db =
      .created ⟨freshId, normalizeEmail body.email, body.name,
        roleOrDefault body.role⟩ ∧
    (∀ r, body.role = some r → r ≠ "" → roleOrDefault body.role = r) ∧
    (body.role = none → roleOrDefault body.role = "student") ∧
    "authenticate" ∉ registerMiddlewares := by
  refine ⟨?_, ?_, ?_, by simp [registerMiddlewares]⟩
  · simp [registerHandler, hemail, hpw, hname, hfresh]
  · intro r hr hne
    simp [roleOrDefault, hr, hne]
  · intro hr
    simp [roleOrDefault, hr]

/-- C4 witness: an unauthenticated body requesting role superadmin yields
a stored superadmin account. -/
theorem register_role_unchecked_witness :
    registerHandler ⟨"eve@x.com".toList, "pw", "Eve", some "superadmin"⟩ 1
        (fun _ => none) =
      .created ⟨1, normalizeEmail "eve@x.com".toList, "Eve", "superadmin"⟩ :=
  (register_role_unchecked ⟨"eve@x.com".toList, "pw", "Eve", some "superadmin"⟩ 1
    (fun _ => none) (by decide) (by decide) (by decide) rfl).1

/-- C6: on both the update and the delete lesson-plan routes, a caller
with role teacher whose email equals the plan's included teacher email
succeeds, a caller with role teacher whose email differs is denied by the
ownership check, and a caller with role admin succeeds regardless of
ownership. -/
theorem lessonPlan_ownership (u : Auth.User) (p : LessonPlan) :
    (u.role = "teacher" → p.teacher.email = u.email →
      updateLessonPlanRoute (some u) (some p) = .success p.id ∧
      deleteLessonPlanRoute (some u) (some p) = .success p.id) ∧
    (u.role = "teacher" → p.teacher.email ≠ u.email →
      updateLessonPlanRoute (some u) (some p) = .ownForbidden ∧
      deleteLessonPlanRoute (some u) (some p) = .ownForbidden) ∧
    (u.role = "admin" →
      updateLessonPlanRoute (some u) (some p) = .success p.id ∧
      deleteLessonPlanRoute (some u) (some p) = .success p.id) := by
  refine ⟨?_, ?_, ?_⟩
  · intro hrole hown
    constructor <;> simp [updateLessonPlanRoute, deleteLessonPlanRoute, hrole, hown]
  · intro hrole hown
    constructor <;> simp [updateLessonPlanRoute, deleteLessonPlanRoute, hrole, hown]
  · intro hrole
    constructor <;> simp [updateLessonPlanRoute, deleteLessonPlanRoute, hrole]

/-- C6 witness: teacher t (email t@x.com) owning plan 10 may update and
delete it; teacher u (email u@x.com) is denied on the same plan; an admin
succeeds on it. -/
theorem lessonPlan_ownership_witness :
    updateLessonPlanRoute (some ⟨3, "t@x.com", "T", "teacher"⟩)
        (some ⟨10, 3, ⟨3, "T", "t@x.com"⟩⟩) = .success 10 ∧
    deleteLessonPlanRoute (some ⟨3, "t@x.com", "T", "teacher"⟩)
        (some ⟨10, 3, ⟨3, "T", "t@x.com"⟩⟩) = .success 10 ∧
    updateLessonPlanRoute (some ⟨4, "u@x.com", "U", "teacher"⟩)
        (some ⟨10, 3, ⟨3, "T", "t@x.com"⟩⟩) = .ownForbidden ∧
    deleteLessonPlanRoute (some ⟨4, "u@x.com", "U", "teacher"⟩)
        (some ⟨10, 3, ⟨3, "T", "t@x.com"⟩⟩) = .ownForbidden ∧
    updateLessonPlanRoute (some ⟨5, "a@x.com", "A", "admin"⟩)
        (some ⟨10, 3, ⟨3, "T", "t@x.com"⟩⟩) = .success 10 := by
  obtain ⟨h1, h2⟩ := (lessonPlan_ownership ⟨3, "t@x.com", "T", "teacher"⟩
    ⟨10, 3, ⟨3, "T", "t@x.com"⟩⟩).1 rfl rfl
  obtain ⟨h3, h4⟩ := (lessonPlan_ownership ⟨4, "u@x.com", "U", "teacher"⟩
    ⟨10, 3, ⟨3, "T", "t@x.com"⟩⟩).2.1 rfl (by decide)
  obtain ⟨h5, -⟩ := (lessonPlan_ownership ⟨5, "a@x.com", "A", "admin"⟩
    ⟨10, 3, ⟨3, "T", "t@x.com"⟩⟩).2.2 rfl
  exact ⟨h1, h2, h3, h4, h5⟩

/-- One unfolding of the retry loop at an in-bounds retry count. -/
theorem retryGo_step {α : Type} (attempts : Nat → Except JsError α)
    (rc : Nat) (h : rc < maxRetries) :
    retryGo attempts rc =
      match attempts rc with
      | .ok v => (some (.ok v), [])
      | .error e =>
          if isRetryable e = true ∧ rc < maxRetries - 1 then
            ((retryGo attempts (rc + 1)).1,
              (1000 * (rc + 1)) :: (retryGo attempts (rc + 1)).2)
          else (some (.error e), []) := by
  rw [retryGo.eq_def]
  simp only [h, dite_true, dif_pos]
  cases ha : attempts rc with
  | ok v => simp
  | error e =>
    by_cases hcond : isRetryable e = true ∧ rc < maxRetries - 1
    · simp [hcond]
    · simp [hcond]

/-- C9: every wrapped call settles within maxRetries = 3 underlying
attempts: it returns exactly the outcome of the final attempt made (`none`,
a fall-through loop exit, never occurs), every earlier attempt failed with
an error of the retryable connection class, the backoff delays waited are
1000 times the retry count in order, and the final attempt is either a
success, a non-retryable error rethrown immediately, or the last permitted
attempt. -/
theorem retry_wrapper_bounded (α : Type) (attempts : Nat → Except JsError α) :
    ∃ k, k < maxRetries ∧
      runWithRetry attempts =
        (some (attempts k), (List.range k).map (fun i => 1000 * (i + 1))) ∧
      (∀ j, j < k → ∃ e, attempts j = .error e ∧ isRetryable e = true) ∧
      ((∃ v, attempts k = .ok v) ∨
        (∃ e, attempts k = .error e ∧ isRetryable e = false) ∨
        k = maxRetries - 1) := by
  unfold runWithRetry
  cases h0 : attempts 0 with
  | ok v0 =>
      refine ⟨0, by decide, ?_, ?_, .inl ⟨v0, h0⟩⟩
      · rw [retryGo_step attempts 0 (by decide), h0]
        simp
      · intro j hj
        exact absurd hj (by omega)
  | error e0 =>
      by_cases hr0 : isRetryable e0 = true
      · cases h1 : attempts 1 with
        | ok v1 =>
            have s1 : retryGo attempts 1 = (some (.ok v1), []) := by
              rw [retryGo_step attempts 1 (by decide), h1]
            refine ⟨1, by decide, ?_, ?_, .inl ⟨v1, h1⟩⟩
            · rw [retryGo_step attempts 0 (by decide), h0, h1]
              simp [hr0, maxRetries, s1, h1, List.range_succ]
            · intro j hj
              have : j = 0 := by omega
              subst this
              exact ⟨e0, h0, hr0⟩
        | error e1 =>
            by_cases hr1 : isRetryable e1 = true
            · have s2 : retryGo attempts 2 = (some (attempts 2), []) := by
                rw [retryGo_step attempts 2 (by decide)]
                cases h2 : attempts 2 with
                | ok v2 => simp
                | error e2 => simp [maxRetries]
              have s1 : retryGo attempts 1 =
                  (some (attempts 2), [1000 * 2]) := by
                rw [retryGo_step attempts 1 (by decide), h1]
                simp [hr1, maxRetries, s2]
              refine ⟨2, by decide, ?_, ?_, .inr (.inr (by decide))⟩
              · rw [retryGo_step attempts 0 (by decide), h0]
                simp [hr0, maxRetries, s1, List.range_succ]
              · intro j hj
                match j, hj with
                | 0, _ => exact ⟨e0, h0, hr0⟩
                | 1, _ => exact ⟨e1, h1, hr1⟩
            · have s1 : retryGo attempts 1 = (some (.error e1), []) := by
                rw [retryGo_step attempts 1 (by decide), h1]
                simp [hr1]
              refine ⟨1, by decide, ?_, ?_,
                .inr (.inl ⟨e1, h1, by simpa using hr1⟩)⟩
              · rw [retryGo_step attempts 0 (by decide), h0, h1]
                simp [hr0, maxRetries, s1, h1, List.range_succ]
              · intro j hj
                have : j = 0 := by omega
                subst this
                exact ⟨e0, h0, hr0⟩
      · refine ⟨0, by decide, ?_, ?_,
          .inr (.inl ⟨e0, h0, by simpa using hr0⟩)⟩
        · rw [retryGo_step attempts 0 (by decide), h0]
          simp [hr0]
        · intro j hj
          exact absurd hj (by omega)

/-- C9 witness: a call whose first attempt succeeds settles with k = 0. -/
theorem retry_wrapper_bounded_witness :
    ∃ k, k < maxRetries ∧
      runWithRetry (fun _ => (.ok 42 : Except JsError Nat)) =
        (some ((fun _ => (.ok 42 : Except JsError Nat)) k),
          (List.range k).map (fun i => 1000 * (i + 1))) ∧
      (∀ j, j < k → ∃ e, (fun _ => (.ok 42 : Except JsError Nat)) j = .error e ∧
        isRetryable e = true) ∧
      ((∃ v, (fun _ => (.ok 42 : Except JsError Nat)) k = .ok v) ∨
        (∃ e, (fun _ => (.ok 42 : Except JsError Nat)) k = .error e ∧
          isRetryable e = false) ∨
        k = maxRetries - 1) :=
  retry_wrapper_bounded Nat (fun _ => .ok 42)

/-- Lowercasing leaves a whitespace character unchanged. -/
theorem toLower_of_isWhitespace {c : Char} (h : c.isWhitespace = true) :
    c.toLower = c := by
  simp only [Char.isWhitespace, Bool.or_eq_true, decide_eq_true_eq] at h
  rcases h with ((h | h) | h) | h <;> subst h <;> decide

/-- Lowercasing an all-whitespace string keeps it all-whitespace. -/
theorem lowerJs_ws {a : List Char} (h : ∀ c ∈ a, c.isWhitespace = true) :
    ∀ c ∈ lowerJs a, c.isWhitespace = true := by
  intro c hc
  simp only [lowerJs, List.mem_map] at hc
  obtain ⟨d, hd, rfl⟩ := hc
  rw [toLower_of_isWhitespace (h d hd)]
  exact h d hd

/-- Dropping whitespace runs through an all-whitespace prefix. -/
theorem dropWhile_ws_append (a s : List Char)
    (h : ∀ c ∈ a, c.isWhitespace = true) :
    (a ++ s).dropWhile Char.isWhitespace = s.dropWhile Char.isWhitespace := by
  induction a with
  | nil => simp
  | cons x xs ih =>
      rw [List.cons_append, List.dropWhile_cons, if_pos (h x (by simp))]
      exact ih (fun c hc => h c (by simp [hc]))

/-- An all-whitespace string trims from the left to nothing. -/
theorem dropWhile_all_ws {b : List Char}
    (h : ∀ c ∈ b, c.isWhitespace = true) :
    b.dropWhile Char.isWhitespace = [] :=
  List.dropWhile_eq_nil_iff.mpr (by simpa using h)

/-- Right trimming ignores an all-whitespace suffix. -/
theorem trimRightJs_ws_append (s b : List Char)
    (h : ∀ c ∈ b, c.isWhitespace = true) :
    trimRightJs (s ++ b) = trimRightJs s := by
  unfold trimRightJs
  rw [List.reverse_append,
    dropWhile_ws_append b.reverse s.reverse
      (fun c hc => h c (List.mem_reverse.mp hc))]

/-- Left trimming is idempotent. -/
theorem trimLeftJs_idem (s : List Char) :
    trimLeftJs (trimLeftJs s) = trimLeftJs s :=
  List.dropWhile_idempotent _ _

/-- Right trimming is idempotent. -/
theorem trimRightJs_idem (s : List Char) :
    trimRightJs (trimRightJs s) = trimRightJs s := by
  unfold trimRightJs
  rw [List.reverse_reverse, List.dropWhile_idempotent]

/-- The right-trimmed string is a prefix of the original. -/
theorem trimRightJs_prefix (s : List Char) : trimRightJs s <+: s := by
  have h := List.reverse_prefix.mpr
    (List.dropWhile_suffix (l := s.reverse) Char.isWhitespace)
  simpa [trimRightJs] using h

/-- A string already left-trimmed stays left-trimmed after right
trimming. -/
theorem trimLeftJs_of_self {s : List Char} (h : trimLeftJs s = s) :
    trimLeftJs (trimRightJs s) = trimRightJs s := by
  cases htr : trimRightJs s with
  | nil => simp [trimLeftJs]
  | cons c r =>
      have hpre : trimRightJs s <+: s := trimRightJs_prefix s
      rw [htr] at hpre
      obtain ⟨rest, hrest⟩ := hpre
      have hs : s = c :: (r ++ rest) := by
        rw [← hrest]; simp
      cases hx : Char.isWhitespace c with
      | false => simp [trimLeftJs, List.dropWhile_cons, hx]
      | true =>
          exfalso
          have h1 : trimLeftJs s = trimLeftJs (r ++ rest) := by
            rw [hs]
            unfold trimLeftJs
            rw [List.dropWhile_cons, if_pos hx]
          have h2 : (trimLeftJs (r ++ rest)).length ≤ (r ++ rest).length := by
            simpa [trimLeftJs] using (List.dropWhile_suffix
              (l := r ++ rest) Char.isWhitespace).length_le
          have h4 : s.length = (trimLeftJs (r ++ rest)).length := by
            rw [← h1, h]
          have h5 : s.length = (r ++ rest).length + 1 := by
            rw [hs]; simp
          omega

/-- JS trim is idempotent. -/
theorem trimJs_idem (s : List Char) : trimJs (trimJs s) = trimJs s := by
  unfold trimJs
  rw [trimLeftJs_of_self (trimLeftJs_idem s)]
  exact trimRightJs_idem _

/-- Trimming strips all-whitespace padding on both sides. -/
theorem trimJs_pad (a s b : List Char)
    (ha : ∀ c ∈ a, c.isWhitespace = true)
    (hb : ∀ c ∈ b, c.isWhitespace = true) :
    trimJs (a ++ s ++ b) = trimJs s := by
  unfold trimJs trimLeftJs
  rw [List.append_assoc, dropWhile_ws_append a (s ++ b) ha,
    List.dropWhile_append]
  by_cases he : (s.dropWhile Char.isWhitespace).isEmpty
  · rw [if_pos he, dropWhile_all_ws hb]
    have hsnil : s.dropWhile Char.isWhitespace = [] := by
      simpa using he
    rw [hsnil]
  · rw [if_neg he]
    exact trimRightJs_ws_append _ b hb

/-- C10: the stored email is the registration email lowercased and
trimmed, and the login lookup normalizes the same way, so a login email
that differs from the stored one only by letter case and surrounding
whitespace resolves to the registered user's record. -/
theorem login_email_case_whitespace (e pre core post : List Char)
    (u : StoredUser) (db : List Char → Option StoredUser)
    (he : u.email = normalizeEmail e)
    (hdb : db u.email = some u)
    (hpre : ∀ c ∈ pre, c.isWhitespace = true)
    (hpost : ∀ c ∈ post, c.isWhitespace = true)
    (hcore : lowerJs core = u.email) :
    loginLookup (pre ++ core ++ post) db = some u := by
  have hsplit : lowerJs (pre ++ core ++ post) =
      lowerJs pre ++ lowerJs core ++ lowerJs post := by
    simp [lowerJs]
  have hkey : normalizeEmail (pre ++ core ++ post) = u.email := by
    unfold normalizeEmail
    rw [hsplit, trimJs_pad _ _ _ (lowerJs_ws hpre) (lowerJs_ws hpost),
      hcore, he]
    unfold normalizeEmail
    exact trimJs_idem _
  unfold loginLookup
  rw [hkey, hdb]

/-- C10 witness: the user registered with raw email "John@X.com " is found
by a login submitting " JoHn@X.CoM  ". -/
theorem login_email_case_whitespace_witness :
    loginLookup (" ".toList ++ "JoHn@X.CoM".toList ++ "  ".toList)
        (fun k => if k = "john@x.com".toList then
          some ⟨1, "john@x.com".toList, "J", "student"⟩ else none) =
      some ⟨1, "john@x.com".toList, "J", "student"⟩ :=
  login_email_case_whitespace "John@X.com ".toList " ".toList
    "JoHn@X.CoM".toList "  ".toList
    ⟨1, "john@x.com".toList, "J", "student"⟩
    (fun k => if k = "john@x.com".toList then
      some ⟨1, "john@x.com".toList, "J", "student"⟩ else none)
    (by decide) (by simp) (by decide) (by decide) (by decide)

end ClassMgmt
